import Mathlib

/-!
Verification of `tornado_json/requesthandlers.py`: the JSON error-translation
layer (`BaseHandler.db_conn`, `ViewHandler.initialize`,
`APIHandler.initialize`, `APIHandler.write_error`).

The handlers are embedded shallowly: each method is a pure Lean function that
returns the ordered list of framework-primitive calls it makes
(`clear`, `set_status`, `set_header`, envelope writes via the JSend mixin,
`finish`, `logging.error`), paired with the Python exception escaping the
method, if any.  A small interpreter (`runActions`) replays such a trace
against a Tornado response state so that postconditions about the final
response can be stated.
-/

namespace TornadoJson

/-- A Python exception value as seen by `APIHandler.write_error`:
its classification under `isinstance(exception, c) for c in [APIError,
ValidationError]`, whether it carries a `log_message` attribute (and with
which value) for `hasattr(exception, "log_message")` /
`exception.log_message`, and its `str(exception)` rendering. -/
structure Exc where
  isAPIError : Bool
  isValidationError : Bool
  log_message : Option String
  toStr : String
deriving DecidableEq, Repr

/-- Modelled from the spec: the two JSend envelope shapes produced by the
envelope-building collaborator (`JSendMixin.fail` / `JSendMixin.error` of
`tornado_json/jsend.py`, which is not part of the excerpt).  `Fail` carries
the client-safe data/message; `Error` carries a message, an optional data
payload and a numeric code, per the response shapes
`{"status": "fail", "data": ...}` and
`{"status": "error", "message": ..., "data": ..., "code": ...}`. -/
inductive Envelope
  | fail (data : String)
  | error (message : String) (data : Option String) (code : Nat)
deriving DecidableEq, Repr

/-- A framework-primitive call made by a handler method, in program order:
`RequestHandler.clear`, `logging.error`, `RequestHandler.set_status`,
`RequestHandler.set_header`, a JSend envelope write, or
`RequestHandler.finish`. -/
inductive Action
  | clear
  | logError (msg : String)
  | setStatus (code : Nat)
  | setHeader (name value : String)
  | writeEnvelope (e : Envelope)
  | finish
deriving DecidableEq, Repr

/-- A Python exception escaping a handler method. -/
inductive PyErr
  | keyError (key : String)
  | attributeError (attr : String)
deriving DecidableEq, Repr

/-- Shallow embedding of `APIHandler.write_error(self, status_code, **kwargs)`
(`requesthandlers.py` lines 54-90).  `settingsDebug` is the truthiness of
`self.settings.get("debug")`; `reason` is the value of `self._reason` (the
framework's standard reason phrase for the status set by `set_status`);
`exc_info` is `kwargs["exc_info"][1]` when `"exc_info"` is in `kwargs`, else
`none`.  Returns the trace of primitive calls made, in order, paired with the
Python exception escaping the method, if any.

Faithful to the source's control flow: `self.clear()` runs first
unconditionally; when `exc_info` is absent the guard block logs, sets status
500, writes the generic `Error` envelope and calls `finish()`, but control
then falls through to `self.set_status(status_code)` and the subscript
`kwargs["exc_info"]` raises `KeyError`.  On the unclassified branch with
debug enabled, `exception.log_message` is read without a `hasattr` guard, so
an exception lacking that attribute raises `AttributeError` before any
envelope is written. -/
def write_error (settingsDebug : Bool) (reason : String) (status_code : Nat)
    (exc_info : Option Exc) : List Action × Option PyErr :=
  match exc_info with
  | none =>
      ([Action.clear,
        Action.logError "exc_info not provided",
        Action.setStatus 500,
        Action.writeEnvelope (Envelope.error "Internal Server Error" none 500),
        Action.finish,
        Action.setStatus status_code],
       some (PyErr.keyError "exc_info"))
  | some exception =>
      let pre := [Action.clear, Action.setStatus status_code]
      if exception.isAPIError || exception.isValidationError then
        (pre ++ [Action.writeEnvelope
                  (Envelope.fail (exception.log_message.getD exception.toStr)),
                 Action.finish], none)
      else if settingsDebug then
        match exception.log_message with
        | some m =>
            (pre ++ [Action.writeEnvelope
                      (Envelope.error reason (some m) status_code),
                     Action.finish], none)
        | none =>
            (pre, some (PyErr.attributeError "log_message"))
      else
        (pre ++ [Action.writeEnvelope (Envelope.error reason none status_code),
                 Action.finish], none)

/-- Shallow embedding of `ViewHandler.initialize` (lines 32-36): a single
`set_header("Content-Type", "text/html")` call. -/
def ViewHandler_init : List Action :=
  [Action.setHeader "Content-Type" "text/html"]

/-- Shallow embedding of `APIHandler.initialize` (lines 48-52): a single
`set_header("Content-Type", "application/json")` call. -/
def APIHandler_init : List Action :=
  [Action.setHeader "Content-Type" "application/json"]

/-- Modelled from the spec: the hosting framework (`tornado.web`, an external
collaborator not in the excerpt) invokes `initialize()` once per request
before dispatching to the matched endpoint method, so a request's trace is
the initializer's actions followed by the endpoint's actions. -/
def handleRequest (initActs endpointActs : List Action) : List Action :=
  initActs ++ endpointActs

/-- The Tornado response-side state touched by the handler primitives.
`clear` resets the status to 200 and empties the headers and the body
buffer; `finish` marks the response finalized. -/
structure ResponseState where
  status : Nat
  headers : List (String × String)
  envelopes : List Envelope
  logs : List String
  finished : Bool
deriving DecidableEq, Repr

/-- The response state at the start of error handling. -/
def initialState : ResponseState :=
  { status := 200, headers := [], envelopes := [], logs := [],
    finished := false }

/-- Effect of one framework-primitive call on the response state. -/
def applyAction (s : ResponseState) : Action → ResponseState
  | Action.clear => { s with status := 200, headers := [], envelopes := [] }
  | Action.logError m => { s with logs := s.logs ++ [m] }
  | Action.setStatus c => { s with status := c }
  | Action.setHeader n v => { s with headers := s.headers ++ [(n, v)] }
  | Action.writeEnvelope e => { s with envelopes := s.envelopes ++ [e] }
  | Action.finish => { s with finished := true }

/-- Replay a trace of primitive calls against a response state. -/
def runActions (s : ResponseState) (acts : List Action) : ResponseState :=
  acts.foldl applyAction s

/-- The envelopes written along a trace, in order. -/
def envelopesOf (acts : List Action) : List Envelope :=
  acts.filterMap fun a =>
    match a with
    | Action.writeEnvelope e => some e
    | _ => none

/-- Truthiness of the value stored in `self.application.db_conn`, as tested
by `not db_conn`: either Python `None` or an injected connection value with
its own truthiness (`__bool__`). -/
inductive PyValue
  | pyNone
  | conn (id : Nat) (truthy : Bool)
deriving DecidableEq, Repr

/-- Python truthiness of a `PyValue`. -/
def PyValue.isTruthy : PyValue → Bool
  | PyValue.pyNone => false
  | PyValue.conn _ t => t

/-- Shallow embedding of the `BaseHandler.db_conn` property (lines 16-25):
reads `self.application.db_conn`, raises
`AttributeError("No database connection was provided.")` when that value is
falsy, and returns it otherwise.  It is a pure function of the injected
value: it performs no mutation. -/
def db_conn (injected : PyValue) : Except String PyValue :=
  if !injected.isTruthy then
    Except.error "No database connection was provided."
  else
    Except.ok injected

/-- C1: for every exception classified as Unclassified (neither `APIError`
nor `ValidationError`), when the debug flag is false, `write_error` writes a
single `Error` envelope whose data field is `none`, and the whole trace is a
constant independent of the exception's content, so no internal text of the
exception can appear anywhere in the response. -/
theorem write_error_unclassified_nondebug_opaque (r : String) (sc : Nat)
    (e : Exc) (h1 : e.isAPIError = false) (h2 : e.isValidationError = false) :
    write_error false r sc (some e) =
      ([Action.clear, Action.setStatus sc,
        Action.writeEnvelope (Envelope.error r none sc), Action.finish],
       none) := by
  simp [write_error, h1, h2]

/-- C1 witness: an unclassified exception whose internal text is a secret
traceback produces the constant non-disclosing trace. -/
theorem write_error_unclassified_nondebug_opaque_witness :
    write_error false "Internal Server Error" 500
      (some { isAPIError := false, isValidationError := false,
              log_message := none, toStr := "secret internal traceback" }) =
      ([Action.clear, Action.setStatus 500,
        Action.writeEnvelope (Envelope.error "Internal Server Error" none 500),
        Action.finish], none) :=
  write_error_unclassified_nondebug_opaque "Internal Server Error" 500
    { isAPIError := false, isValidationError := false,
      log_message := none, toStr := "secret internal traceback" } rfl rfl

/-- C2: evaluating `write_error` at the failing input (no `exc_info` in
`kwargs`, supplied status 404) shows the absent-context branch does log
once, set status 500, write the generic `Error` envelope and finish — but
then falls through: `set_status(404)` runs after the fallback envelope and
`kwargs["exc_info"]` raises `KeyError`, so the branch both performs further
status-setting and throws, contrary to the claim. -/
theorem write_error_absent_context_fallthrough :
    write_error false "Not Found" 404 none =
      ([Action.clear,
        Action.logError "exc_info not provided",
        Action.setStatus 500,
        Action.writeEnvelope (Envelope.error "Internal Server Error" none 500),
        Action.finish,
        Action.setStatus 404],
       some (PyErr.keyError "exc_info")) := rfl

/-- C3: two paths of `write_error` violate the every-path postcondition: the
absent-context path lets a `KeyError` escape the translator, and the
unclassified debug-enabled path with an exception lacking `log_message` lets
an `AttributeError` escape with no envelope written and the response never
finalized. -/
theorem write_error_escaping_paths :
    (write_error false "Not Found" 404 none).2 =
        some (PyErr.keyError "exc_info") ∧
    (write_error true "Internal Server Error" 500
        (some { isAPIError := false, isValidationError := false,
                log_message := none, toStr := "division by zero" })).2 =
        some (PyErr.attributeError "log_message") ∧
    (runActions initialState
        (write_error true "Internal Server Error" 500
          (some { isAPIError := false, isValidationError := false,
                  log_message := none,
                  toStr := "division by zero" })).1).finished = false ∧
    envelopesOf
        (write_error true "Internal Server Error" 500
          (some { isAPIError := false, isValidationError := false,
                  log_message := none,
                  toStr := "division by zero" })).1 = [] :=
  ⟨rfl, rfl, rfl, rfl⟩

/-- C4: for every `APIError` or `ValidationError`, `write_error` writes a
single `Fail` envelope whose data is the exception's `log_message` verbatim
when that attribute is present and `str(exception)` when it is absent; the
trace is the same for both values of the debug flag, which appears nowhere
on the right-hand side. -/
theorem write_error_safe_fail_envelope (d : Bool) (r : String) (sc : Nat)
    (e : Exc) (h : e.isAPIError = true ∨ e.isValidationError = true) :
    write_error d r sc (some e) =
      ([Action.clear, Action.setStatus sc,
        Action.writeEnvelope (Envelope.fail (e.log_message.getD e.toStr)),
        Action.finish], none) := by
  have hc : (e.isAPIError || e.isValidationError) = true := by
    rcases h with h | h <;> simp [h]
  simp [write_error, hc]

/-- C4 witness: an `APIError` carrying the disclosure-safe message
"quota exceeded" yields a `Fail` envelope with exactly that text, with debug
enabled. -/
theorem write_error_safe_fail_envelope_witness :
    write_error true "Bad Request" 400
      (some { isAPIError := true, isValidationError := false,
              log_message := some "quota exceeded",
              toStr := "APIError: quota exceeded" }) =
      ([Action.clear, Action.setStatus 400,
        Action.writeEnvelope (Envelope.fail "quota exceeded"),
        Action.finish], none) :=
  write_error_safe_fail_envelope true "Bad Request" 400
    { isAPIError := true, isValidationError := false,
      log_message := some "quota exceeded",
      toStr := "APIError: quota exceeded" } (Or.inl rfl)

/-- C5: evaluating `write_error` at the claim's own example (unclassified
fault "division by zero", debug enabled, status 500) shows the code reads
`exception.log_message` without a `hasattr` guard and raises
`AttributeError` after `clear` and `set_status`, writing no envelope at all
instead of an `Error` envelope with data "division by zero". -/
theorem write_error_unclassified_debug_attribute_crash :
    write_error true "Internal Server Error" 500
      (some { isAPIError := false, isValidationError := false,
              log_message := none, toStr := "division by zero" }) =
      ([Action.clear, Action.setStatus 500],
       some (PyErr.attributeError "log_message")) := rfl

/-- C6: whenever the error context is present, `write_error` begins with
exactly `clear` followed by `set_status(status_code)`, and replaying its
trace from any starting response state leaves the response status equal to
the supplied status code (no later action changes the status). -/
theorem write_error_clear_then_status (d : Bool) (r : String) (sc : Nat)
    (e : Exc) :
    (write_error d r sc (some e)).1.take 2 =
        [Action.clear, Action.setStatus sc] ∧
    ∀ s0 : ResponseState,
      (runActions s0 (write_error d r sc (some e)).1).status = sc := by
  rcases e with ⟨a, v, lm, st⟩
  cases a <;> cases v <;> cases d <;> cases lm <;>
    simp [write_error, runActions, applyAction]

/-- C7 counterexample: an injected connection value that was provided but is
falsy (for example an empty container) makes `db_conn` raise the
configuration error even though a connection was provided, so the accessor
does not raise exactly when no connection was provided. -/
theorem db_conn_provided_falsy_raises :
    db_conn (PyValue.conn 0 false) =
        Except.error "No database connection was provided." ∧
    PyValue.conn 0 false ≠ PyValue.pyNone :=
  ⟨rfl, by decide⟩

/-- C7 amended: the `db_conn` accessor returns the injected
database-connection value unchanged exactly when that value is truthy, and
raises the configuration error exactly when the injected value is falsy
(`None` or any falsy provided value); it is a pure function of the injected
value and mutates nothing. -/
theorem db_conn_truthy_iff (v : PyValue) :
    (db_conn v = Except.ok v ↔ v.isTruthy = true) ∧
    (db_conn v = Except.error "No database connection was provided." ↔
        v.isTruthy = false) := by
  cases hv : v.isTruthy <;> simp [db_conn, hv]

/-- C8: replaying either initializer from any response state appends exactly
one Content-Type header write — `text/html` for `ViewHandler`,
`application/json` for `APIHandler` — and changes nothing else in the
response state; and in the framework's per-request pipeline that single
header write precedes every endpoint action. -/
theorem handler_init_sets_content_type (s0 : ResponseState)
    (endpointActs : List Action) :
    runActions s0 ViewHandler_init =
      { s0 with headers := s0.headers ++ [("Content-Type", "text/html")] } ∧
    runActions s0 APIHandler_init =
      { s0 with
          headers := s0.headers ++ [("Content-Type", "application/json")] } ∧
    handleRequest ViewHandler_init endpointActs =
      Action.setHeader "Content-Type" "text/html" :: endpointActs ∧
    handleRequest APIHandler_init endpointActs =
      Action.setHeader "Content-Type" "application/json" :: endpointActs := by
  refine ⟨?_, ?_, rfl, rfl⟩ <;>
    simp [ViewHandler_init, APIHandler_init, runActions, applyAction]

/-- C9: on every invocation — error context present or absent —
`write_error`'s first primitive call is `clear`, performed before the
`exc_info` presence check, so the partially-written response is also reset
on the absent-context path. -/
theorem write_error_clear_first (d : Bool) (r : String) (sc : Nat)
    (ei : Option Exc) :
    (write_error d r sc ei).1.head? = some Action.clear := by
  cases ei with
  | none => rfl
  | some e =>
    rcases e with ⟨a, v, lm, st⟩
    cases a <;> cases v <;> cases d <;> cases lm <;> simp [write_error]

/-- C10: `db_conn` raises its configuration error for every falsy injected
value, not only for `None`, and truthiness of the injected value is
necessary and sufficient for the accessor to return it. -/
theorem db_conn_falsy_rejected (v : PyValue) :
    (v.isTruthy = false →
        db_conn v = Except.error "No database connection was provided.") ∧
    (db_conn v = Except.ok v ↔ v.isTruthy = true) := by
  cases hv : v.isTruthy <;> simp [db_conn, hv]

/-- C10 witness: a provided-but-falsy connection value is rejected with the
configuration error, and the return-iff-truthy equivalence holds there. -/
theorem db_conn_falsy_rejected_witness :
    db_conn (PyValue.conn 1 false) =
        Except.error "No database connection was provided." ∧
    (db_conn (PyValue.conn 1 false) = Except.ok (PyValue.conn 1 false) ↔
        (PyValue.conn 1 false).isTruthy = true) :=
  ⟨(db_conn_falsy_rejected (PyValue.conn 1 false)).1 rfl,
   (db_conn_falsy_rejected (PyValue.conn 1 false)).2⟩

end TornadoJson
